import Mathlib

/-!
Shallow embedding of the event-driven control plane of the Neuton_ai
application (Zephyr-based motion-sensing firmware): the button gesture
detector (`src/application/modules/button/button.c`), the sampling engine
(`src/application/modules/sampling/sampling.c`), the detection bridge
(`src/application/modules/detection/detection.c`) and the top-level state
machine (`src/application/src/main.c`), together with theorems settling the
frozen claims about them.

Machine integers are modelled as `Nat`/`Int` (timestamps are `int64_t`,
modelled as `Int`; bitmasks are `uint32_t`, manipulated only through the
bitwise operations the C performs). The serialized callback domain of the
button module (Zephyr system work queue) is modelled as a sequential trace
of callback invocations; a delayable work item is tracked by its pending
flag, and a work item that is not pending when its slot in the trace comes
up does not dispatch (this is exactly the `k_work_cancel_delayable`
semantics inside one serialized domain).
-/

/-- Embeds `enum button_event` from `button.h`. -/
inductive ButtonEvent
  | singlePress
  | doublePress
  | longPress
  deriving DecidableEq, Repr

/-- Embeds `enum app_states` from `main.c`. -/
inductive AppState
  | idle
  | detecting
  | sensorSampling
  deriving DecidableEq, Repr

/-- Embeds `button_listener_callback` from `main.c`: given the current state
and the `button_event_msg` received on `BUTTON_CHAN`, it returns the state
requested via `smf_set_state`.  The C `switch` never consults the current
state. -/
def button_listener_callback (current : AppState) (e : ButtonEvent) : AppState :=
  match current, e with
  | _, ButtonEvent.singlePress => AppState.detecting
  | _, ButtonEvent.doublePress => AppState.sensorSampling
  | _, ButtonEvent.longPress => AppState.idle

/-- Embeds `DK_BTN1_MSK` from `dk_buttons_and_leds.h` (bit 0). -/
def DK_BTN1_MSK : Nat := 1

/-- Embeds the 32-bit complement mask `~DK_BTN1_MSK` used by
`pressed_buttons &= ~DK_BTN1_MSK`. -/
def DK_BTN1_CLEAR : Nat := 0xFFFFFFFE

/-- Embeds `struct button_state` from `button.c`, restricted to what lives in
the serialized callback domain: the two `k_work_delayable` items are tracked
by their pending flags (scheduled and not yet dispatched nor cancelled). -/
structure ButtonState where
  button_press_count : Nat
  last_button_press_time : Int
  pressed_buttons : Nat
  long_press_pending : Bool
  button_work_pending : Bool
  deriving DecidableEq, Repr

/-- Embeds the detector state right after `button_init` zeroes it. -/
def button_init_state : ButtonState :=
  { button_press_count := 0
    last_button_press_time := 0
    pressed_buttons := 0
    long_press_pending := false
    button_work_pending := false }

/-- Embeds `button_pressed_callback` from `button.c`.  `debounce_ms` is
`CONFIG_APP_BUTTON_DEBOUNCE_TIME_MS` (a Kconfig constant, kept parametric)
and `now` is the value `k_uptime_get()` returned for this edge.  The press
branch's `k_work_schedule` of the long-press work and the release branch's
`k_work_reschedule` of the double-press-window work appear as the pending
flags being set; `k_work_cancel_delayable` clears the long-press flag. -/
def button_pressed_callback (debounce_ms : Int) (s : ButtonState)
    (button_state_mask has_changed : Nat) (now : Int) : ButtonState :=
  if has_changed = 0 then s
  else if has_changed &&& DK_BTN1_MSK = 0 then s
  else if button_state_mask &&& DK_BTN1_MSK ≠ 0 then
    if now - s.last_button_press_time < debounce_ms then s
    else
      { s with
        pressed_buttons := s.pressed_buttons ||| DK_BTN1_MSK
        last_button_press_time := now
        button_press_count := s.button_press_count + 1
        long_press_pending := true }
  else
    if s.long_press_pending then
      { s with
        pressed_buttons := s.pressed_buttons &&& DK_BTN1_CLEAR
        long_press_pending := false
        button_work_pending := true }
    else
      { s with pressed_buttons := s.pressed_buttons &&& DK_BTN1_CLEAR }

/-- Embeds `long_press_work_handler` from `button.c`.  Dispatch of a delayable
work item clears its pending flag; the handler body emits `LongPress` and
resets the press counter and last-press timestamp only if BTN1 is still
physically pressed. -/
def long_press_work_handler (s : ButtonState) : ButtonState × List ButtonEvent :=
  let s0 := { s with long_press_pending := false }
  if s0.pressed_buttons &&& DK_BTN1_MSK ≠ 0 then
    ({ s0 with button_press_count := 0, last_button_press_time := 0 },
      [ButtonEvent.longPress])
  else (s0, [])

/-- Embeds `button_work_handler` (the double-press-window callback) from
`button.c`: count 1 publishes `SinglePress`, count 2 publishes `DoublePress`,
any other count only logs; all branches reset the press counter and the
last-press timestamp. -/
def button_work_handler (s : ButtonState) : ButtonState × List ButtonEvent :=
  let s0 := { s with button_work_pending := false }
  if s0.button_press_count = 1 then
    ({ s0 with button_press_count := 0, last_button_press_time := 0 },
      [ButtonEvent.singlePress])
  else if s0.button_press_count = 2 then
    ({ s0 with button_press_count := 0, last_button_press_time := 0 },
      [ButtonEvent.doublePress])
  else
    ({ s0 with button_press_count := 0, last_button_press_time := 0 }, [])

/-- Actions of the serialized button callback domain: a hardware edge
notification, the long-press work dispatch slot, and the double-press-window
work dispatch slot. -/
inductive ButtonAction
  | edge (button_state_mask has_changed : Nat) (now : Int)
  | longFire
  | workFire
  deriving DecidableEq, Repr

/-- Recognizes the two work-dispatch actions. -/
def ButtonAction.isFire : ButtonAction → Bool
  | ButtonAction.edge _ _ _ => false
  | ButtonAction.longFire => true
  | ButtonAction.workFire => true

/-- One step of the serialized callback domain.  A fire action whose work item
is not pending does nothing: a cancelled (or never scheduled) delayable work
item does not dispatch. -/
def button_step (debounce_ms : Int) (s : ButtonState) (a : ButtonAction) :
    ButtonState × List ButtonEvent :=
  match a with
  | ButtonAction.edge mask changed now =>
      (button_pressed_callback debounce_ms s mask changed now, [])
  | ButtonAction.longFire =>
      if s.long_press_pending then long_press_work_handler s else (s, [])
  | ButtonAction.workFire =>
      if s.button_work_pending then button_work_handler s else (s, [])

/-- Runs a trace of button-domain actions, collecting the events published on
`BUTTON_CHAN` in order. -/
def button_run (debounce_ms : Int) (s : ButtonState) :
    List ButtonAction → ButtonState × List ButtonEvent
  | [] => (s, [])
  | a :: rest =>
      let p := button_step debounce_ms s a
      let q := button_run debounce_ms p.1 rest
      (q.1, p.2 ++ q.2)

/-- Trace shape of the claim "an accepted press edge, then the button is held
continuously past the long-press timeout": the press edge, then the long-press
work dispatches (the button still down), then the release edge, then any
further work-dispatch slots. -/
def long_hold_trace (t1 t2 : Int) (rest : List ButtonAction) : List ButtonAction :=
  ButtonAction.edge DK_BTN1_MSK DK_BTN1_MSK t1 :: ButtonAction.longFire ::
    ButtonAction.edge 0 DK_BTN1_MSK t2 :: rest

/-- Embeds the Zephyr errno values the modules return (negated, as in the C). -/
def ENODEV : Int := 19

/-- Embeds `EINVAL`. -/
def EINVAL : Int := 22

/-- Embeds `EALREADY` (Zephyr minimal libc value). -/
def EALREADY : Int := 120

/-- Embeds `struct sensor_value` from the Zephyr sensor API. -/
structure SensorValue where
  val1 : Int
  val2 : Int
  deriving DecidableEq, Repr

/-- Embeds `sensor_value_to_double`: `val1 + val2 / 1000000.0`.  The double
arithmetic is idealized as exact rational arithmetic; no claim depends on the
numeric value, only on which fields are written when. -/
def sensor_value_to_double (v : SensorValue) : ℚ := v.val1 + v.val2 / 1000000

/-- Embeds `struct imu_sample` from `sampling.h`. -/
structure ImuSample where
  accel_x : ℚ
  accel_y : ℚ
  accel_z : ℚ
  gyro_x : ℚ
  gyro_y : ℚ
  gyro_z : ℚ
  deriving DecidableEq, Repr

/-- Models the IMU device as seen through the Zephyr sensor API calls that
`sampling.c` makes: the return code of each call (`sensor_attr_set` as a
function of the requested rate, `sensor_sample_fetch`, `sensor_channel_get`
per channel) and the channel data a successful `sensor_channel_get`
delivers. -/
structure ImuDevice where
  attr_set_accel_ret : Int → Int
  attr_set_gyro_ret : Int → Int
  sample_fetch_ret : Int
  channel_get_accel_ret : Int
  channel_get_gyro_ret : Int
  accel : Fin 3 → SensorValue
  gyro : Fin 3 → SensorValue

/-- Embeds `sampling_set_frequency` from `sampling.c`: `imu_dev` null gives
`-ENODEV`; the accel ODR write's failure code is returned before the gyro ODR
write is attempted; otherwise the gyro write's code or 0.  Nothing of the
module state records the frequency. -/
def sampling_set_frequency (dev : Option ImuDevice) (frequency_hz : Int) : Int :=
  match dev with
  | none => -ENODEV
  | some d =>
      if d.attr_set_accel_ret frequency_hz ≠ 0 then d.attr_set_accel_ret frequency_hz
      else if d.attr_set_gyro_ret frequency_hz ≠ 0 then d.attr_set_gyro_ret frequency_hz
      else 0

/-- Embeds `sampling_get_sample` from `sampling.c`.  The caller's struct is
modelled by its current contents `old`; the function returns the error code
and the contents of the struct afterwards.  `sample_ptr_valid` is whether the
caller passed a non-null `sample` pointer.  The six assignments through the
pointer are the last statements of the C function, after every fetch and read
has succeeded; `sensor_channel_get` writes only into stack-local arrays. -/
def sampling_get_sample (dev : Option ImuDevice) (sample_ptr_valid : Bool)
    (old : ImuSample) : Int × ImuSample :=
  match dev with
  | none => (-ENODEV, old)
  | some d =>
      if !sample_ptr_valid then (-EINVAL, old)
      else if d.sample_fetch_ret ≠ 0 then (d.sample_fetch_ret, old)
      else if d.channel_get_accel_ret ≠ 0 then (d.channel_get_accel_ret, old)
      else if d.channel_get_gyro_ret ≠ 0 then (d.channel_get_gyro_ret, old)
      else
        (0,
          { accel_x := sensor_value_to_double (d.accel 0)
            accel_y := sensor_value_to_double (d.accel 1)
            accel_z := sensor_value_to_double (d.accel 2)
            gyro_x := sensor_value_to_double (d.gyro 0)
            gyro_y := sensor_value_to_double (d.gyro 1)
            gyro_z := sensor_value_to_double (d.gyro 2) })

/-- Modelled from the spec: `CONFIG_APP_SAMPLING_FREQUENCY_HZ`, the Kconfig
detection sampling frequency used by `sampling_start`'s `k_timer_start`, is
defined outside `src/` (Kconfig); the spec fixes it at 100 Hz — `main` calls
`sampling_set_frequency(100)` and §8 requires `set_frequency(100)` then
`start()` to publish at a 10 ms period. -/
def CONFIG_APP_SAMPLING_FREQUENCY_HZ : Nat := 100

/-- Embeds the module-static state of `sampling.c`: the `sampling_active` and
`print_enabled` flags, and the `k_timer`, tracked as the period in
milliseconds it is armed with (`none` when stopped). -/
structure SamplingState where
  sampling_active : Bool
  print_enabled : Bool
  timer_period_ms : Option Nat
  deriving DecidableEq, Repr

/-- Embeds the sampling module state after `sampling_init` (flags at their
static initializers, timer initialized but not started). -/
def sampling_init_state : SamplingState :=
  { sampling_active := false, print_enabled := false, timer_period_ms := none }

/-- Embeds `sampling_start` from `sampling.c`: `-EALREADY` and no state change
when already active; otherwise set active and start the periodic timer with
period `1000 / CONFIG_APP_SAMPLING_FREQUENCY_HZ` ms (C integer division). -/
def sampling_start (s : SamplingState) : Int × SamplingState :=
  if s.sampling_active then (-EALREADY, s)
  else
    (0,
      { s with
        sampling_active := true
        timer_period_ms := some (1000 / CONFIG_APP_SAMPLING_FREQUENCY_HZ) })

/-- Embeds `sampling_stop` from `sampling.c`: `-EALREADY` and no state change
when not active; otherwise clear active and stop the timer. -/
def sampling_stop (s : SamplingState) : Int × SamplingState :=
  if !s.sampling_active then (-EALREADY, s)
  else (0, { s with sampling_active := false, timer_period_ms := none })

/-- Embeds `sampling_set_print_enabled` from `sampling.c`. -/
def sampling_set_print_enabled (enabled : Bool) (s : SamplingState) : SamplingState :=
  { s with print_enabled := enabled }

/-- Embeds one iteration of `sampling_thread_fn` after `k_sem_take` returns:
the sample it attempts to publish on `imu_data_chan` (`none` when the wake is
discarded or the read fails) and whether a diagnostic row is printed.
`scratch` is the thread's stack-local `sample` variable. -/
def sampling_thread_wake (dev : Option ImuDevice) (s : SamplingState)
    (scratch : ImuSample) : Option ImuSample × Bool :=
  if !s.sampling_active then (none, false)
  else
    let r := sampling_get_sample dev true scratch
    if r.1 ≠ 0 then (none, false)
    else (some r.2, s.print_enabled)

/-- Embeds `sensor_sampling_exit` from `main.c`: the `Exit(RawSampling)`
action stops the sampling engine; a non-zero return from `sampling_stop` is
only logged — the exit action returns normally either way, so the state
transition is never blocked. -/
def sensor_sampling_exit (s : SamplingState) : SamplingState :=
  (sampling_stop s).2

/-- Embeds `UINT16_MAX`, the invalid-class sentinel of `detection.c`. -/
def UINT16_MAX : Nat := 65535

/-- Embeds the outcome of `nrf_edgeai_feed_inputs` as `detection.c`
distinguishes it: `NRF_EDGEAI_ERR_SUCCESS` (window complete),
`NRF_EDGEAI_ERR_INPROGRESS` (still accumulating), anything else an error. -/
inductive FeedResult
  | success
  | inprogress
  | error
  deriving DecidableEq, Repr

/-- Models the environment of one `imu_data_listener_cb` invocation: what the
opaque EdgeAI engine returns (feed outcome, inference outcome, decoded
`predicted_class`, a `uint16_t`) and the return code of the one
`zbus_chan_pub` call this invocation may make. -/
structure DetectionEnv where
  feed : FeedResult
  inference_ok : Bool
  predicted_class : Nat
  pub_ret : Int
  deriving DecidableEq, Repr

/-- Embeds `imu_data_listener_cb` from `detection.c`, restricted to its
effect on `last_published_class`: given the current `last_published_class`
and the invocation's environment, it returns the new `last_published_class`
and, when `zbus_chan_pub` is called, the class of the published
`detection_result` together with whether the publish succeeded. -/
def imu_data_listener_cb (last_published_class : Nat) (env : DetectionEnv) :
    Nat × Option (Nat × Bool) :=
  match env.feed with
  | FeedResult.success =>
      if env.inference_ok then
        if env.predicted_class ≠ last_published_class then
          if env.pub_ret = 0 then
            (env.predicted_class, some (env.predicted_class, true))
          else
            (last_published_class, some (env.predicted_class, false))
        else (last_published_class, none)
      else (last_published_class, none)
  | FeedResult.inprogress => (last_published_class, none)
  | FeedResult.error => (last_published_class, none)

/-- Embeds `detection_reset_state` from `detection.c` (also the state set by
`detection_init`): `last_published_class` becomes the invalid sentinel. -/
def detection_reset_state : Nat := UINT16_MAX

/-- Runs a sequence of listener invocations (no intervening
`detection_reset_state`), collecting every `zbus_chan_pub` call made on
`detection_result_chan` as (class, publish succeeded). -/
def detection_run (last_published_class : Nat) :
    List DetectionEnv → Nat × List (Nat × Bool)
  | [] => (last_published_class, [])
  | env :: rest =>
      let p := imu_data_listener_cb last_published_class env
      let q := detection_run p.1 rest
      (q.1, p.2.toList ++ q.2)

/-- Classes of the successfully published `ClassificationResult`s of a run,
in publication order. -/
def published_classes (last_published_class : Nat) (envs : List DetectionEnv) :
    List Nat :=
  (((detection_run last_published_class envs).2).filter (fun r => r.2)).map
    (fun r => r.1)

/-- Environment of a listener invocation whose window is complete, whose
inference succeeds with the given class, and whose publish succeeds. -/
def env_of (c : Nat) : DetectionEnv :=
  { feed := FeedResult.success, inference_ok := true, predicted_class := c
    pub_ret := 0 }

/-- C1: from every current application mode, a `SinglePress` drives the state
machine to `Detecting`, a `DoublePress` to `RawSampling` (`STATE_SENSOR_SAMPLING`)
and a `LongPress` to `Idle`, independent of the current mode. -/
theorem app_button_transition_table (s s' : AppState) :
    button_listener_callback s ButtonEvent.singlePress = AppState.detecting ∧
    button_listener_callback s ButtonEvent.doublePress = AppState.sensorSampling ∧
    button_listener_callback s ButtonEvent.longPress = AppState.idle ∧
    (∀ e : ButtonEvent, button_listener_callback s e = button_listener_callback s' e) := by
  refine ⟨rfl, rfl, rfl, fun e => ?_⟩
  cases e <;> rfl

/-- Helper device whose every sensor-API call succeeds. -/
def imu_device_ok : ImuDevice :=
  { attr_set_accel_ret := fun _ => 0
    attr_set_gyro_ret := fun _ => 0
    sample_fetch_ret := 0
    channel_get_accel_ret := 0
    channel_get_gyro_ret := 0
    accel := fun _ => { val1 := 0, val2 := 0 }
    gyro := fun _ => { val1 := 0, val2 := 0 } }

/-- Helper device whose `sensor_sample_fetch` fails with `-EIO`. -/
def imu_device_fetch_fail : ImuDevice :=
  { imu_device_ok with sample_fetch_ret := -5 }

/-- Helper all-zero sample contents. -/
def sample_zero : ImuSample :=
  { accel_x := 0, accel_y := 0, accel_z := 0, gyro_x := 0, gyro_y := 0, gyro_z := 0 }

/-- C8: whenever the double-press-window callback runs, press count 1 emits
exactly one `SinglePress`, press count 2 emits exactly one `DoublePress`, any
other count emits nothing; in every case the press counter and the last-press
timestamp end up zero. -/
theorem double_press_window_body (s : ButtonState) :
    (button_work_handler s).2 =
      (if s.button_press_count = 1 then [ButtonEvent.singlePress]
       else if s.button_press_count = 2 then [ButtonEvent.doublePress]
       else []) ∧
    (button_work_handler s).1.button_press_count = 0 ∧
    (button_work_handler s).1.last_button_press_time = 0 := by
  unfold button_work_handler
  split_ifs <;> simp_all

/-- C9: `sampling_start` while active fails with `-EALREADY` and changes
nothing (no duplicate timer armed); `sampling_stop` while inactive fails with
`-EALREADY` and changes nothing; otherwise start arms the periodic timer and
sets active, and stop stops the timer and clears active. -/
theorem sampling_start_stop_guards (p : Bool) (t : Option Nat) :
    sampling_start { sampling_active := true, print_enabled := p, timer_period_ms := t } =
      (-EALREADY, { sampling_active := true, print_enabled := p, timer_period_ms := t }) ∧
    sampling_stop { sampling_active := false, print_enabled := p, timer_period_ms := t } =
      (-EALREADY, { sampling_active := false, print_enabled := p, timer_period_ms := t }) ∧
    sampling_start { sampling_active := false, print_enabled := p, timer_period_ms := t } =
      (0, { sampling_active := true, print_enabled := p, timer_period_ms := some 10 }) ∧
    sampling_stop { sampling_active := true, print_enabled := p, timer_period_ms := t } =
      (0, { sampling_active := false, print_enabled := p, timer_period_ms := none }) := by
  refine ⟨rfl, rfl, ?_, rfl⟩
  simp [sampling_start, CONFIG_APP_SAMPLING_FREQUENCY_HZ]

/-- C6: on exit from `RawSampling` the sampling engine is stopped: afterwards
the engine is inactive and the timer is disarmed (when it was running), the
print flag itself is not written — printing is disabled implicitly, every
subsequent worker wake being discarded without publishing or printing — and a
`sampling_stop` failure (already inactive) leaves the state unchanged and
never blocks the exit, which returns normally in all cases. -/
theorem raw_sampling_exit_stops (s : SamplingState) (dev : Option ImuDevice)
    (scratch : ImuSample) :
    (sensor_sampling_exit s).sampling_active = false ∧
    (sensor_sampling_exit s).timer_period_ms =
      (if s.sampling_active then none else s.timer_period_ms) ∧
    (sensor_sampling_exit s).print_enabled = s.print_enabled ∧
    sampling_thread_wake dev (sensor_sampling_exit s) scratch = (none, false) := by
  cases hs : s.sampling_active <;>
    simp [sensor_sampling_exit, sampling_stop, sampling_thread_wake, hs]

/-- C5: after a successful `sampling_set_frequency 100`, a successful
`sampling_start` arms the periodic timer with period
`1000 / CONFIG_APP_SAMPLING_FREQUENCY_HZ` milliseconds (C integer division),
which at the spec-fixed 100 Hz is the integer 10 — a 10 ms publication
period. -/
theorem set_frequency_then_start_period (dev : ImuDevice) (s : SamplingState)
    (hfreq : sampling_set_frequency (some dev) 100 = 0)
    (hidle : s.sampling_active = false) :
    (sampling_start s).1 = 0 ∧
    (sampling_start s).2.timer_period_ms =
      some (1000 / CONFIG_APP_SAMPLING_FREQUENCY_HZ) ∧
    CONFIG_APP_SAMPLING_FREQUENCY_HZ = 100 ∧
    (1000 : Nat) / 100 = 10 := by
  simp [sampling_start, hidle, CONFIG_APP_SAMPLING_FREQUENCY_HZ]

/-- Witness for C5 at the freshly initialized module and an always-succeeding
device. -/
theorem set_frequency_then_start_period_witness :
    (sampling_start sampling_init_state).1 = 0 ∧
    (sampling_start sampling_init_state).2.timer_period_ms =
      some (1000 / CONFIG_APP_SAMPLING_FREQUENCY_HZ) ∧
    CONFIG_APP_SAMPLING_FREQUENCY_HZ = 100 ∧
    (1000 : Nat) / 100 = 10 :=
  set_frequency_then_start_period imu_device_ok sampling_init_state (by decide) rfl

/-- C10: whenever `sampling_get_sample` returns a non-zero error — device
uninitialized, null sample pointer, or any fetch/read failure — the caller's
sample struct is left exactly as it was; when it returns 0, the device was
present, the pointer non-null, every fetch and read succeeded, and the six
fields hold the converted channel data. -/
theorem get_sample_error_leaves_sample (dev : Option ImuDevice) (ptr : Bool)
    (old : ImuSample) :
    ((sampling_get_sample dev ptr old).1 ≠ 0 →
      (sampling_get_sample dev ptr old).2 = old) ∧
    ((sampling_get_sample dev ptr old).1 = 0 →
      ∃ d, dev = some d ∧ ptr = true ∧ d.sample_fetch_ret = 0 ∧
        d.channel_get_accel_ret = 0 ∧ d.channel_get_gyro_ret = 0 ∧
        (sampling_get_sample dev ptr old).2 =
          { accel_x := sensor_value_to_double (d.accel 0)
            accel_y := sensor_value_to_double (d.accel 1)
            accel_z := sensor_value_to_double (d.accel 2)
            gyro_x := sensor_value_to_double (d.gyro 0)
            gyro_y := sensor_value_to_double (d.gyro 1)
            gyro_z := sensor_value_to_double (d.gyro 2) } ) := by
  cases dev with
  | none => exact ⟨fun _ => rfl, fun h => by simp [sampling_get_sample, ENODEV] at h⟩
  | some d =>
      cases ptr with
      | false => exact ⟨fun _ => rfl, fun h => by simp [sampling_get_sample, EINVAL] at h⟩
      | true =>
          by_cases h1 : d.sample_fetch_ret = 0 <;>
            by_cases h2 : d.channel_get_accel_ret = 0 <;>
              by_cases h3 : d.channel_get_gyro_ret = 0 <;>
                simp [sampling_get_sample, h1, h2, h3]

/-- Witness for C10: with a failing fetch the caller's struct is untouched. -/
theorem get_sample_error_leaves_sample_witness :
    (sampling_get_sample (some imu_device_fetch_fail) true sample_zero).2 = sample_zero :=
  (get_sample_error_leaves_sample (some imu_device_fetch_fail) true sample_zero).1
    (by decide)

/-- Unfolds one listener invocation out of `published_classes`. -/
lemma published_classes_cons (last : Nat) (e : DetectionEnv)
    (rest : List DetectionEnv) :
    published_classes last (e :: rest) =
      (((imu_data_listener_cb last e).2.toList.filter (fun r => r.2)).map
          (fun r => r.1)) ++
        published_classes (imu_data_listener_cb last e).1 rest := by
  simp [published_classes, detection_run]

/-- Invariant of the publish-on-change guard: prefixing the current
`last_published_class` to the successfully published classes of any run gives
a list with no two adjacent elements equal. -/
lemma chain_last_published (last : Nat) (envs : List DetectionEnv) :
    List.Chain' (fun a b => a ≠ b) (last :: published_classes last envs) := by
  induction envs generalizing last with
  | nil => simp [published_classes, detection_run]
  | cons e rest ih =>
      rw [published_classes_cons]
      obtain ⟨f, iok, c, r⟩ := e
      cases f with
      | inprogress => simpa [imu_data_listener_cb] using ih last
      | error => simpa [imu_data_listener_cb] using ih last
      | success =>
          cases iok with
          | false => simpa [imu_data_listener_cb] using ih last
          | true =>
              by_cases hc : c = last
              · simpa [imu_data_listener_cb, hc] using ih last
              · by_cases hr : r = 0
                · simpa [imu_data_listener_cb, hc, hr, List.chain'_cons] using
                    ⟨fun h => hc h.symm, ih c⟩
                · simpa [imu_data_listener_cb, hc, hr] using ih last

/-- Publication list of a run whose every invocation carries the class the
current `last_published_class` already holds is empty. -/
lemma published_classes_const_self (c : Nat) :
    ∀ envs : List DetectionEnv, (∀ e ∈ envs, e.predicted_class = c) →
      published_classes c envs = []
  | [], _ => by simp [published_classes, detection_run]
  | e :: rest, hconst => by
      rw [published_classes_cons]
      have hc : e.predicted_class = c := hconst e (by simp)
      have hrest : ∀ x ∈ rest, x.predicted_class = c := fun x hx =>
        hconst x (by simp [hx])
      obtain ⟨f, iok, c', r⟩ := e
      have hc' : c' = c := hc
      cases f with
      | inprogress =>
          simpa [imu_data_listener_cb] using published_classes_const_self c rest hrest
      | error =>
          simpa [imu_data_listener_cb] using published_classes_const_self c rest hrest
      | success =>
          cases iok with
          | false =>
              simpa [imu_data_listener_cb] using
                published_classes_const_self c rest hrest
          | true =>
              simpa [imu_data_listener_cb, hc'] using
                published_classes_const_self c rest hrest

/-- A run whose every invocation carries one and the same predicted class
publishes at most once, from any starting `last_published_class`. -/
lemma published_classes_const_len (c : Nat) :
    ∀ (envs : List DetectionEnv), (∀ e ∈ envs, e.predicted_class = c) →
      ∀ last : Nat, (published_classes last envs).length ≤ 1
  | [], _, last => by simp [published_classes, detection_run]
  | e :: rest, hconst, last => by
      rw [published_classes_cons]
      have hc : e.predicted_class = c := hconst e (by simp)
      have hrest : ∀ x ∈ rest, x.predicted_class = c := fun x hx =>
        hconst x (by simp [hx])
      obtain ⟨f, iok, c', r⟩ := e
      have hc' : c' = c := hc
      cases f with
      | inprogress =>
          simpa [imu_data_listener_cb] using
            published_classes_const_len c rest hrest last
      | error =>
          simpa [imu_data_listener_cb] using
            published_classes_const_len c rest hrest last
      | success =>
          cases iok with
          | false =>
              simpa [imu_data_listener_cb] using
                published_classes_const_len c rest hrest last
          | true =>
              by_cases hcl : c' = last
              · simpa [imu_data_listener_cb, hcl] using
                  published_classes_const_len c rest hrest last
              · by_cases hr : r = 0
                · subst hc'
                  simp [imu_data_listener_cb, hcl, hr,
                    published_classes_const_self c' rest hrest]
                · simpa [imu_data_listener_cb, hcl, hr] using
                    published_classes_const_len c rest hrest last

/-- C2 counterexample: starting from the reset sentinel, the classification
sequence 0, 1, 0 (window complete, inference and publish succeeding each
time, no intervening `detection_reset_state`) makes the bridge publish class
0 twice: the guard compares only against the most recently published class,
not against every class published since the last reset. -/
theorem detection_per_class_counterexample :
    published_classes detection_reset_state [env_of 0, env_of 1, env_of 0] =
      [0, 1, 0] ∧
    ¬ (published_classes detection_reset_state
        [env_of 0, env_of 1, env_of 0]).count 0 ≤ 1 := by
  decide

/-- C2 (amended): from detection-module initialization (or the most recent
`detection_reset_state`) until the next `detection_reset_state`, no two
consecutive successfully published `ClassificationResult`s carry the same
predicted class; in particular, under repeated identical classifications at
most one result is published. -/
theorem detection_publish_on_change (envs : List DetectionEnv) :
    List.Chain' (fun a b => a ≠ b)
      (published_classes detection_reset_state envs) ∧
    (∀ c : Nat, (∀ e ∈ envs, e.predicted_class = c) →
      (published_classes detection_reset_state envs).length ≤ 1) :=
  ⟨(chain_last_published detection_reset_state envs).tail,
    fun c hconst => published_classes_const_len c envs hconst detection_reset_state⟩

/-- Witness for C2 (amended) on the repeated identical classification 5, 5. -/
theorem detection_publish_on_change_witness :
    List.Chain' (fun a b => a ≠ b)
      (published_classes detection_reset_state [env_of 5, env_of 5]) ∧
    (published_classes detection_reset_state [env_of 5, env_of 5]).length ≤ 1 := by
  have h := detection_publish_on_change [env_of 5, env_of 5]
  exact ⟨h.1, h.2 5 (by decide)⟩

/-- C3: when the window is complete and inference succeeds, `zbus_chan_pub`
is called exactly when the predicted class differs from
`last_published_class`; on publish success `last_published_class` becomes the
predicted class, on publish failure it stays unchanged so the same class can
be retried on a later qualifying sample. -/
theorem classification_publish_gate (last : Nat) (env : DetectionEnv)
    (hfeed : env.feed = FeedResult.success) (hinf : env.inference_ok = true) :
    ((imu_data_listener_cb last env).2.isSome ↔ env.predicted_class ≠ last) ∧
    (env.predicted_class ≠ last → env.pub_ret = 0 →
      imu_data_listener_cb last env =
        (env.predicted_class, some (env.predicted_class, true))) ∧
    (env.predicted_class ≠ last → env.pub_ret ≠ 0 →
      imu_data_listener_cb last env = (last, some (env.predicted_class, false))) := by
  by_cases hc : env.predicted_class = last <;> by_cases hr : env.pub_ret = 0 <;>
    simp [imu_data_listener_cb, hfeed, hinf, hc, hr]

/-- Witness for C3: class 3 against the reset sentinel, publish succeeding. -/
theorem classification_publish_gate_witness :
    ((imu_data_listener_cb UINT16_MAX (env_of 3)).2.isSome ↔
      (env_of 3).predicted_class ≠ UINT16_MAX) ∧
    ((env_of 3).predicted_class ≠ UINT16_MAX → (env_of 3).pub_ret = 0 →
      imu_data_listener_cb UINT16_MAX (env_of 3) =
        ((env_of 3).predicted_class, some ((env_of 3).predicted_class, true))) ∧
    ((env_of 3).predicted_class ≠ UINT16_MAX → (env_of 3).pub_ret ≠ 0 →
      imu_data_listener_cb UINT16_MAX (env_of 3) =
        (UINT16_MAX, some ((env_of 3).predicted_class, false))) :=
  classification_publish_gate UINT16_MAX (env_of 3) rfl rfl

/-- Bit 0 of a mask stays set after or-ing it in. -/
lemma or_one_and_one (x : Nat) : (x ||| 1) &&& 1 = 1 := by
  rw [Nat.and_one_is_mod]
  have h : (x ||| 1).testBit 0 = true := by
    rw [Nat.testBit_lor]; simp
  simpa [Nat.testBit_zero] using h

/-- One edge callback increments the press counter by at most one. -/
lemma press_count_le (d : Int) (s : ButtonState) (m c : Nat) (t : Int) :
    (button_pressed_callback d s m c t).button_press_count ≤
      s.button_press_count + 1 := by
  unfold button_pressed_callback
  split_ifs <;> simp

/-- An edge callback either leaves the press counter and the last-press
timestamp alone, or it accepts the press: the counter goes up by one, the
timestamp becomes `now`, and at least the debounce interval elapsed since the
previous accepted press edge. -/
lemma press_accept_or_keep (d : Int) (s : ButtonState) (m c : Nat) (t : Int) :
    ((button_pressed_callback d s m c t).button_press_count =
        s.button_press_count ∧
      (button_pressed_callback d s m c t).last_button_press_time =
        s.last_button_press_time) ∨
    ((button_pressed_callback d s m c t).button_press_count =
        s.button_press_count + 1 ∧
      (button_pressed_callback d s m c t).last_button_press_time = t ∧
      d ≤ t - s.last_button_press_time) := by
  unfold button_pressed_callback
  split_ifs with h1 h2 h3 h4 h5
  · exact Or.inl ⟨rfl, rfl⟩
  · exact Or.inl ⟨rfl, rfl⟩
  · exact Or.inl ⟨rfl, rfl⟩
  · exact Or.inr ⟨rfl, rfl, Int.not_lt.mp h4⟩
  · exact Or.inl ⟨rfl, rfl⟩
  · exact Or.inl ⟨rfl, rfl⟩

/-- C7: a press edge arriving less than the debounce interval after the
previous accepted press edge is ignored — the callback returns with the
detector state fully unchanged (counter not incremented, long-press work not
armed) and publishes nothing; consequently, of any two edges less than the
debounce interval apart, at most one press is accepted (the counter rises by
at most one across both). -/
theorem software_debounce_ignores :
    (∀ (d : Int) (s : ButtonState) (mask changed : Nat) (now : Int),
      changed &&& DK_BTN1_MSK ≠ 0 → mask &&& DK_BTN1_MSK ≠ 0 →
      now - s.last_button_press_time < d →
      button_pressed_callback d s mask changed now = s ∧
      (button_step d s (ButtonAction.edge mask changed now)).2 = []) ∧
    (∀ (d : Int) (s : ButtonState) (m1 c1 : Nat) (t1 : Int) (m2 c2 : Nat)
      (t2 : Int), t2 - t1 < d →
      (button_pressed_callback d (button_pressed_callback d s m1 c1 t1)
          m2 c2 t2).button_press_count ≤ s.button_press_count + 1) := by
  constructor
  · intro d s mask changed now hbit hpress hdeb
    have hch : changed ≠ 0 := by
      intro h
      rw [h] at hbit
      simp at hbit
    refine ⟨?_, rfl⟩
    unfold button_pressed_callback
    rw [if_neg hch, if_neg hbit, if_pos hpress, if_pos hdeb]
  · intro d s m1 c1 t1 m2 c2 t2 hlt
    rcases press_accept_or_keep d s m1 c1 t1 with ⟨hc1, hl1⟩ | ⟨hc1, hl1, hd1⟩
    · have h := press_count_le d (button_pressed_callback d s m1 c1 t1) m2 c2 t2
      omega
    · rcases press_accept_or_keep d (button_pressed_callback d s m1 c1 t1)
          m2 c2 t2 with ⟨hc2, _⟩ | ⟨_, _, hd2⟩
      · omega
      · rw [hl1] at hd2
        omega

/-- Witness for C7: a second BTN1 press 20 ms after an accepted one, with a
50 ms debounce interval, is ignored, and two presses 20 ms apart bump the
counter at most once. -/
theorem software_debounce_ignores_witness :
    (button_pressed_callback 50 button_init_state 1 1 0 = button_init_state ∧
      (button_step 50 button_init_state (ButtonAction.edge 1 1 0)).2 = []) ∧
    (button_pressed_callback 50 (button_pressed_callback 50 button_init_state 1 1 100)
        1 1 120).button_press_count ≤ button_init_state.button_press_count + 1 :=
  ⟨software_debounce_ignores.1 50 button_init_state 1 1 0 (by decide) (by decide)
      (by decide),
    software_debounce_ignores.2 50 button_init_state 1 1 100 1 1 120 (by decide)⟩

/-- A trace of only work-dispatch slots starting from a state where neither
work item is pending runs to the same state and publishes nothing. -/
lemma button_run_fires_noop (d : Int) (s : ButtonState)
    (acts : List ButtonAction) (hl : s.long_press_pending = false)
    (hw : s.button_work_pending = false)
    (hf : ∀ a ∈ acts, a.isFire = true) :
    button_run d s acts = (s, []) := by
  induction acts with
  | nil => rfl
  | cons a rest ih =>
      have ha := hf a (by simp)
      have hrest : ∀ x ∈ rest, x.isFire = true := fun x hx => hf x (by simp [hx])
      cases a with
      | edge m c t => simp [ButtonAction.isFire] at ha
      | longFire => simp [button_run, button_step, hl, ih hrest]
      | workFire => simp [button_run, button_step, hw, ih hrest]

/-- Unfolds one action out of `button_run`. -/
lemma button_run_cons (d : Int) (s : ButtonState) (a : ButtonAction)
    (l : List ButtonAction) :
    button_run d s (a :: l) =
      ((button_run d (button_step d s a).1 l).1,
        (button_step d s a).2 ++ (button_run d (button_step d s a).1 l).2) := rfl

/-- C4: from a quiescent detector (BTN1 up, neither deferred work item
pending), an accepted press edge followed by the long-press work firing while
the button is still held (the hold lasted past the long-press timeout) and by
the release edge publishes exactly one `LongPress` and nothing else; the
long-press handler resets the press counter and last-press timestamp, and the
release edge finds the long-press work no longer pending, so the
double-press-window work is never armed — whatever further work-dispatch
slots follow, no `SinglePress` or `DoublePress` is published for that
press. -/
theorem long_press_exclusive (d : Int) (s0 : ButtonState) (t1 t2 : Int)
    (rest : List ButtonAction)
    (hq1 : s0.pressed_buttons &&& DK_BTN1_MSK = 0)
    (hq2 : s0.long_press_pending = false)
    (hq3 : s0.button_work_pending = false)
    (hacc : d ≤ t1 - s0.last_button_press_time)
    (hrest : ∀ a ∈ rest, a.isFire = true) :
    (button_run d s0 (long_hold_trace t1 t2 rest)).2 = [ButtonEvent.longPress] ∧
    (button_run d s0 (long_hold_trace t1 t2 rest)).1.button_work_pending = false ∧
    (button_run d s0 (long_hold_trace t1 t2 rest)).1.button_press_count = 0 := by
  have hnd : ¬ (t1 - s0.last_button_press_time < d) := Int.not_lt.mpr hacc
  have h1 : button_step d s0 (ButtonAction.edge DK_BTN1_MSK DK_BTN1_MSK t1) =
      ({ button_press_count := s0.button_press_count + 1
         last_button_press_time := t1
         pressed_buttons := s0.pressed_buttons ||| DK_BTN1_MSK
         long_press_pending := true
         button_work_pending := s0.button_work_pending }, []) := by
    simp [button_step, button_pressed_callback, DK_BTN1_MSK, hnd]
  have h2 : button_step d
      { button_press_count := s0.button_press_count + 1
        last_button_press_time := t1
        pressed_buttons := s0.pressed_buttons ||| DK_BTN1_MSK
        long_press_pending := true
        button_work_pending := s0.button_work_pending } ButtonAction.longFire =
      ({ button_press_count := 0
         last_button_press_time := 0
         pressed_buttons := s0.pressed_buttons ||| DK_BTN1_MSK
         long_press_pending := false
         button_work_pending := s0.button_work_pending },
        [ButtonEvent.longPress]) := by
    simp [button_step, long_press_work_handler, DK_BTN1_MSK, or_one_and_one]
  have h3 : button_step d
      { button_press_count := 0
        last_button_press_time := 0
        pressed_buttons := s0.pressed_buttons ||| DK_BTN1_MSK
        long_press_pending := false
        button_work_pending := s0.button_work_pending }
      (ButtonAction.edge 0 DK_BTN1_MSK t2) =
      ({ button_press_count := 0
         last_button_press_time := 0
         pressed_buttons := (s0.pressed_buttons ||| DK_BTN1_MSK) &&& DK_BTN1_CLEAR
         long_press_pending := false
         button_work_pending := s0.button_work_pending }, []) := by
    simp [button_step, button_pressed_callback, DK_BTN1_MSK]
  have h4 : button_run d
      { button_press_count := 0
        last_button_press_time := 0
        pressed_buttons := (s0.pressed_buttons ||| DK_BTN1_MSK) &&& DK_BTN1_CLEAR
        long_press_pending := false
        button_work_pending := s0.button_work_pending } rest =
      ({ button_press_count := 0
         last_button_press_time := 0
         pressed_buttons := (s0.pressed_buttons ||| DK_BTN1_MSK) &&& DK_BTN1_CLEAR
         long_press_pending := false
         button_work_pending := s0.button_work_pending }, []) :=
    button_run_fires_noop d _ rest rfl hq3 hrest
  rw [long_hold_trace, button_run_cons, h1, button_run_cons, h2,
    button_run_cons, h3, h4]
  simp [hq3]

/-- Witness for C4: debounce 50 ms, quiescent freshly initialized detector,
press at t = 100 ms, hold past the timeout (long-press work fires), release
at t = 1200 ms, then one more slot of each work item. -/
theorem long_press_exclusive_witness :
    (button_run 50 button_init_state
        (long_hold_trace 100 1200 [ButtonAction.workFire, ButtonAction.longFire])).2 =
      [ButtonEvent.longPress] ∧
    (button_run 50 button_init_state
        (long_hold_trace 100 1200
          [ButtonAction.workFire, ButtonAction.longFire])).1.button_work_pending =
      false ∧
    (button_run 50 button_init_state
        (long_hold_trace 100 1200
          [ButtonAction.workFire, ButtonAction.longFire])).1.button_press_count =
      0 :=
  long_press_exclusive 50 button_init_state 100 1200
    [ButtonAction.workFire, ButtonAction.longFire] (by decide) rfl rfl (by decide)
    (by decide)
